import Mathlib

/-!
# Verification of the Holtek_MAP_GCS vehicle-link manager

Shallow embedding of the MAVLink connection / telemetry / rover-controller
modules (`program/mavlink_module/{connection,telemetry,rover_controller}.py`
and `program/config.py`) together with proofs of the behavioural claims made
by the natural-language specification.

Modelling conventions:
* Python `dict[int, int]` channel maps are association lists `List (Nat × Int)`
  processed in insertion order (Python dicts preserve insertion order and have
  unique keys).
* Machine floats that the claims depend on only through exact comparisons are
  modelled as rationals (`ℚ`); `time.time()` is passed in as an explicit
  `now : ℚ` parameter.
* Thread timers are modelled by boolean "armed" flags; transport sends are
  modelled by the frame they would transmit (`List Int` of the 18 RC slots),
  `none` when nothing is sent.  A send succeeds exactly when the connection
  is up (transport exceptions are out of scope of the claims).
-/

set_option autoImplicit false

namespace HoltekGCS

/-! ## Configuration (`program/config.py`) -/

namespace Config

/-- `RC_OVERRIDE_MIN = 1000` -/
def RC_OVERRIDE_MIN : Int := 1000

/-- `RC_OVERRIDE_MAX = 2000` -/
def RC_OVERRIDE_MAX : Int := 2000

/-- `RC_OVERRIDE_MID = 1500` -/
def RC_OVERRIDE_MID : Int := 1500

/-- `RC_CHANNELS['THROTTLE'] = 1` -/
def THROTTLE : Nat := 1

/-- `RC_CHANNELS['STEERING'] = 2` -/
def STEERING : Nat := 2

/-- `SAFETY_LIMITS['max_throttle_override'] = 1800` -/
def max_throttle_override : Int := 1800

/-- `SAFETY_LIMITS['max_steering_override'] = 1800` -/
def max_steering_override : Int := 1800

/-- `PERFORMANCE_CHARTS['max_data_points'] = 300` (telemetry history cap). -/
def max_data_points : Nat := 300

/-- `PERFORMANCE_CHARTS['time_window_seconds'] = 30` (defined in the config
but never consulted by the telemetry history code). -/
def time_window_seconds : Nat := 30

/-- Fixed reconnect backoff: `threading.Timer(5.0, ...)` in
`_start_reconnect_timer`. -/
def RECONNECT_BACKOFF : ℚ := 5

/-- Connect-time heartbeat wait: `wait_heartbeat(timeout=8)`. -/
def CONNECT_HEARTBEAT_TIMEOUT : ℚ := 8

end Config

/-! ## Channel maps (Python `dict[int, int]`) -/

/-- A Python `dict[int, int]` of channel → pulse width, in insertion order. -/
abbrev ChannelMap := List (Nat × Int)

/-- `d[k] = v`: replace the value at an existing key in place, otherwise
append (Python dict assignment semantics). -/
def insertKV (m : ChannelMap) (k : Nat) (v : Int) : ChannelMap :=
  if (List.any m fun kv => kv.1 = k) then
    List.map (fun kv => if kv.1 = k then (k, v) else kv) m
  else m ++ [(k, v)]

/-- `d.update(other)` (Python dict update). -/
def updateMap (m add : ChannelMap) : ChannelMap :=
  List.foldl (fun acc kv => insertKV acc kv.1 kv.2) m add

/-- `d.pop(k, None)` (Python dict key removal). -/
def removeKey (m : ChannelMap) (k : Nat) : ChannelMap :=
  List.filter (fun kv => kv.1 ≠ k) m

/-- `for ch in channels: d.pop(ch, None)`. -/
def removeAllKeys (m : ChannelMap) (chs : List Nat) : ChannelMap :=
  List.foldl removeKey m chs

/-- Value of the last (hence, for a dict, the unique) entry with key `k`. -/
def findLastVal : ChannelMap → Nat → Option Int
  | [], _ => none
  | kv :: rest, k =>
    match findLastVal rest k with
    | some v => some v
    | none => if kv.1 = k then some kv.2 else none

/-! ## Connection layer (`connection.py`) -/

/-- Per-value clamp in `MAVLinkConnection.send_rc_override`:
`max(1000, min(int(value), 2000))`. -/
def clampRc (v : Int) : Int := max 1000 (min v 2000)

/-- One iteration of the frame-filling loop in `send_rc_override`:
`if 1 <= ch <= 18: rc_channels[ch-1] = clampRc value`. -/
def frameStep (frame : List Int) (kv : Nat × Int) : List Int :=
  if 1 ≤ kv.1 ∧ kv.1 ≤ 18 then frame.set (kv.1 - 1) (clampRc kv.2) else frame

/-- The 18-slot RC_CHANNELS_OVERRIDE frame built by `send_rc_override`:
start from `[0] * 18` and fill each requested channel with its clamped
value. -/
def buildFrame (channels : ChannelMap) : List Int :=
  List.foldl frameStep (List.replicate 18 0) channels

/-- `MAVLinkConnection.send_rc_override`: returns the transmitted frame, or
`none` when the connection is down (the function returns `False` without
sending). -/
def send_rc_override_frame (connected : Bool) (channels : ChannelMap) :
    Option (List Int) :=
  if connected then some (buildFrame channels) else none

/-- `MAVLinkConnection.clear_rc_override`: frame transmitted by a clear
request.  `none` channel argument sends a full release frame (`[0] * 18`);
a named list builds `{ch: 0}` and routes it through `send_rc_override`
(whose clamp applies); an empty named list sends nothing. -/
def conn_clear_frame (connected : Bool) (channels : Option (List Nat)) :
    Option (List Int) :=
  if connected then
    match channels with
    | none => some (List.replicate 18 0)
    | some chs =>
      if chs.isEmpty then none
      else send_rc_override_frame connected (chs.map fun c => (c, (0 : Int)))
  else none

/-- `MAVLinkConnection.clear_rc_override` success flag: fails when the
connection is down, otherwise returns `True`. -/
def conn_clear_ok (connected : Bool) : Bool := connected

/-! ### Connection lifecycle (`MAVLinkConnection.connect`) -/

/-- Connection-manager state visible to the claims. -/
structure ConnState where
  is_connected : Bool
  target_system : Nat
  target_component : Nat
  deriving DecidableEq, Repr

/-- Outcome of one connection attempt as seen by `connect()`:
a first heartbeat arrived, the 8 s heartbeat wait timed out
(`wait_heartbeat` returned `None`), or the transport raised an exception. -/
inductive ConnectOutcome where
  | heartbeat (sys comp : Nat)
  | hbTimeout
  | transportError
  deriving DecidableEq, Repr

/-- `MAVLinkConnection.connect()` — result flag, resulting state, and the
number of times `_start_reconnect_timer()` was invoked during the call.
The heartbeat-timeout branch (`if not heartbeat:`) sets
`is_connected = False` and returns `False` without touching the reconnect
timer; only the exception handler calls `_start_reconnect_timer()`. -/
def connect (st : ConnState) (o : ConnectOutcome) : Bool × ConnState × Nat :=
  match o with
  | .heartbeat sys comp =>
    (true, { is_connected := true, target_system := sys, target_component := comp }, 0)
  | .hbTimeout => (false, { st with is_connected := false }, 0)
  | .transportError => (false, { st with is_connected := false }, 1)

/-! ## Rover controller (`rover_controller.py`) -/

/-- Mutable controller state from `RoverController.__init__`.  The two
timers (`rc_override_timer` safety deadline and `rc_maintain_timer`
refresh loop) are modelled by their armed flags. -/
structure ControllerState where
  rc_override_active : Bool
  rc_override_channels : ChannelMap
  emergency_stop_active : Bool
  safety_limits_enabled : Bool
  safety_timer_active : Bool
  maintain_timer_active : Bool
  deriving DecidableEq, Repr

/-- Controller state right after `RoverController.__init__`. -/
def initialControllerState : ControllerState :=
  { rc_override_active := false
    rc_override_channels := ([] : List (Nat × Int))
    emergency_stop_active := false
    safety_limits_enabled := true
    safety_timer_active := false
    maintain_timer_active := false }

/-- `RoverController._apply_safety_limits`: when limits are enabled, clamp
every requested value into the generic
`[RC_OVERRIDE_MIN, RC_OVERRIDE_MAX]` range; the per-channel
`SAFETY_LIMITS` bounds are never consulted. -/
def apply_safety_limits (s : ControllerState) (channels : ChannelMap) :
    ChannelMap :=
  if ¬s.safety_limits_enabled then channels
  else
    List.map
      (fun kv =>
        (kv.1, max Config.RC_OVERRIDE_MIN (min Config.RC_OVERRIDE_MAX kv.2)))
      channels

/-- `RoverController._check_rc_override_safety`: rejects whenever the
emergency-stop latch is set. -/
def check_rc_override_safety (s : ControllerState) : Bool :=
  ¬s.emergency_stop_active

/-- `RoverController.set_rc_override(channels)` with the default timeout:
returns the success flag, the resulting controller state, and the frame
transmitted (if any).  The default safety timeout (5 s > 0) arms the
safety-deadline timer, and the refresh (`rc_maintain`) timer is started. -/
def set_rc_override (connected : Bool) (s : ControllerState)
    (channels : ChannelMap) : Bool × ControllerState × Option (List Int) :=
  if ¬connected then (false, s, none)
  else if ¬check_rc_override_safety s then (false, s, none)
  else
    let safe := apply_safety_limits s channels
    -- `connection.send_rc_override(safe)` succeeds here (connection is up)
    (true,
      { s with
        rc_override_channels := updateMap s.rc_override_channels safe
        rc_override_active := true
        safety_timer_active := true
        maintain_timer_active := true },
      send_rc_override_frame connected safe)

/-- `RoverController.clear_rc_override(channels)`: forwards to
`connection.clear_rc_override` (which fails when disconnected); on success
removes the named channels (or all), and when the map is empty transitions
to idle and stops both timers (`_stop_rc_override_timer`). -/
def clear_rc_override (connected : Bool) (s : ControllerState)
    (channels : Option (List Nat)) :
    Bool × ControllerState × Option (List Int) :=
  if ¬conn_clear_ok connected then (false, s, none)
  else
    match channels with
    | none =>
      (true,
        { s with
          rc_override_channels := ([] : List (Nat × Int))
          rc_override_active := false
          safety_timer_active := false
          maintain_timer_active := false },
        conn_clear_frame connected none)
    | some chs =>
      let m := removeAllKeys s.rc_override_channels chs
      if m.isEmpty then
        (true,
          { s with
            rc_override_channels := m
            rc_override_active := false
            safety_timer_active := false
            maintain_timer_active := false },
          conn_clear_frame connected (some chs))
      else
        (true, { s with rc_override_channels := m },
          conn_clear_frame connected (some chs))

/-- `RoverController.emergency_stop()`: latch the flag, attempt a full
clear (result ignored), command HOLD mode (no controller-state effect,
result ignored), return `True`. -/
def emergency_stop (connected : Bool) (s : ControllerState) :
    Bool × ControllerState :=
  let s1 := { s with emergency_stop_active := true }
  let r := clear_rc_override connected s1 none
  (true, r.2.1)

/-- `RoverController.release_emergency_stop()`. -/
def release_emergency_stop (s : ControllerState) : Bool × ControllerState :=
  (true, { s with emergency_stop_active := false })

/-! ## Telemetry aggregator (`telemetry.py`) -/

/-- `collections.deque(maxlen=maxlen).append(x)`: append on the right,
dropping from the left when over capacity. -/
def dequeAppend {α : Type} (maxlen : Nat) (q : List α) (x : α) : List α :=
  let q' := q ++ [x]
  if maxlen < q'.length then q'.drop (q'.length - maxlen) else q'

/-- Appending a whole sequence of points to a bounded deque. -/
def dequeExtend {α : Type} (maxlen : Nat) (q : List α) (xs : List α) : List α :=
  List.foldl (dequeAppend maxlen) q xs

/-- One battery history point as appended by `_handle_battery_status`. -/
structure BatteryPoint where
  timestamp : ℚ
  voltage : ℚ
  current : ℚ
  remaining : ℚ
  deriving DecidableEq, Repr

/-- `battery_history` is `deque(maxlen=config.PERFORMANCE_CHARTS['max_data_points'])`;
this is the only retention mechanism (no age-based eviction exists). -/
def battery_history_extend (q : List BatteryPoint) (xs : List BatteryPoint) :
    List BatteryPoint :=
  dequeExtend Config.max_data_points q xs

/-- `BatteryData` snapshot (floats modelled as rationals). -/
structure BatteryData where
  voltage : ℚ
  current : ℚ
  remaining : ℚ
  consumed : ℚ
  timestamp : ℚ
  deriving DecidableEq, Repr

/-- Raw fields of a decoded BATTERY_STATUS message used by the handler. -/
structure BatteryMsg where
  voltages : List Int
  current_battery : Int
  battery_remaining : Int
  current_consumed : Int
  deriving DecidableEq, Repr

/-- `RoverTelemetryProcessor._handle_battery_status`: update each snapshot
field only when its raw value is not the sentinel (`65535` for
`voltages[0]`, `-1` for the rest), stamp the time, and append a history
point built from the (possibly unchanged) snapshot. -/
def handle_battery_status (b : BatteryData) (hist : List BatteryPoint)
    (msg : BatteryMsg) (now : ℚ) : BatteryData × List BatteryPoint :=
  let b1 :=
    match msg.voltages with
    | v0 :: _ => if v0 ≠ 65535 then { b with voltage := (v0 : ℚ) / 1000 } else b
    | [] => b
  let b2 :=
    if msg.current_battery ≠ -1 then
      { b1 with current := (msg.current_battery : ℚ) / 100 }
    else b1
  let b3 :=
    if msg.battery_remaining ≠ -1 then
      { b2 with remaining := (msg.battery_remaining : ℚ) }
    else b2
  let b4 :=
    if msg.current_consumed ≠ -1 then
      { b3 with consumed := (msg.current_consumed : ℚ) }
    else b3
  let b5 := { b4 with timestamp := now }
  let pt : BatteryPoint := ⟨b5.timestamp, b5.voltage, b5.current, b5.remaining⟩
  (b5, dequeAppend Config.max_data_points hist pt)

/-- `AttitudeData` snapshot. -/
structure AttitudeData where
  roll : ℚ
  pitch : ℚ
  yaw : ℚ
  roll_degrees : ℚ
  pitch_degrees : ℚ
  yaw_degrees : ℚ
  timestamp : ℚ
  deriving DecidableEq, Repr

/-- `VelocityData` snapshot. -/
structure VelocityData where
  ground_speed : ℚ
  air_speed : ℚ
  climb_rate : ℚ
  heading : ℚ
  timestamp : ℚ
  deriving DecidableEq, Repr

/-- `PositionData` snapshot. -/
structure PositionData where
  latitude : ℚ
  longitude : ℚ
  altitude : ℚ
  relative_altitude : ℚ
  timestamp : ℚ
  deriving DecidableEq, Repr

/-- `SystemStatus` snapshot. -/
structure SystemStatusData where
  armed : Bool
  flight_mode : String
  gps_status : Int
  satellites_visible : Int
  system_load : ℚ
  timestamp : ℚ
  deriving DecidableEq, Repr

/-- Raw fields of a decoded SYS_STATUS message used by
`_handle_sys_status`. -/
structure SysStatusMsg where
  voltage_battery : Int
  current_battery : Int
  battery_remaining : Int
  load : Int
  deriving DecidableEq, Repr

/-- `RoverTelemetryProcessor._handle_sys_status`: unconditionally
overwrites `battery.voltage` (mV → V), `battery.current` (cA → A) and
`battery.remaining` from the raw message fields — no sentinel checks —
and updates `system_status.system_load` and its timestamp (the battery
timestamp is not touched here). -/
def handle_sys_status (b : BatteryData) (sys : SystemStatusData)
    (msg : SysStatusMsg) (now : ℚ) : BatteryData × SystemStatusData :=
  ({ b with
      voltage := (msg.voltage_battery : ℚ) / 1000
      current := (msg.current_battery : ℚ) / 100
      remaining := (msg.battery_remaining : ℚ) },
    { sys with
      system_load := (msg.load : ℚ) / 10
      timestamp := now })

/-- `RCChannelsData` snapshot (18 raw channel values). -/
structure RCChannelsData where
  channels : List Int
  rssi : Int
  timestamp : ℚ
  deriving DecidableEq, Repr

/-- `ServoOutputData` snapshot (16 raw outputs). -/
structure ServoOutputData where
  outputs : List Int
  timestamp : ℚ
  deriving DecidableEq, Repr

/-- The aggregator state read by `get_dashboard_data`. -/
structure TelemetryState where
  is_connected : Bool
  attitude : AttitudeData
  velocity : VelocityData
  position : PositionData
  battery : BatteryData
  system_status : SystemStatusData
  rc_channels : RCChannelsData
  servo_output : ServoOutputData

/-- Python `round(x, d)` modelled as rational rounding to `d` decimal
places (the dashboard claims do not depend on float tie-breaking). -/
def roundTo (q : ℚ) (d : Nat) : ℚ :=
  ((round (q * (10 : ℚ) ^ d) : ℤ) : ℚ) / (10 : ℚ) ^ d

/-- Flattened composite returned by `get_dashboard_data` (the Python dict
of dicts).  `offline_mode` and `message` are present only in the offline
branch; their absence in the online branch is modelled as
`false` / `none`. -/
structure DashboardData where
  timestamp : ℚ
  connection_status : Bool
  offline_mode : Bool
  message : Option String
  attitude_roll : ℚ
  attitude_pitch : ℚ
  attitude_yaw : ℚ
  attitude_timestamp : ℚ
  velocity_ground_speed : ℚ
  velocity_heading : ℚ
  velocity_climb_rate : ℚ
  velocity_timestamp : ℚ
  position_latitude : ℚ
  position_longitude : ℚ
  position_altitude : ℚ
  position_timestamp : ℚ
  battery_voltage : ℚ
  battery_current : ℚ
  battery_remaining : ℚ
  battery_consumed : ℚ
  battery_timestamp : ℚ
  system_armed : Bool
  system_flight_mode : String
  system_gps_status : Int
  system_satellites : Int
  system_load : ℚ
  system_timestamp : ℚ
  rc_channels : List Int
  rc_rssi : Int
  rc_timestamp : ℚ
  servo_outputs : List Int
  servo_timestamp : ℚ

/-- `RoverTelemetryProcessor.get_dashboard_data`: when not connected,
return the fixed offline composite (all numerics zero, RC channels and
servo outputs at neutral 1500, `flight_mode = "OFFLINE"`); when connected,
return the current snapshots (battery and load rounded, channel lists
truncated to the first 8). -/
def get_dashboard_data (st : TelemetryState) (now : ℚ) : DashboardData :=
  if ¬st.is_connected then
    { timestamp := now
      connection_status := false
      offline_mode := true
      message := some "未連接到飛控，顯示離線數據"
      attitude_roll := 0, attitude_pitch := 0, attitude_yaw := 0
      attitude_timestamp := now
      velocity_ground_speed := 0, velocity_heading := 0, velocity_climb_rate := 0
      velocity_timestamp := now
      position_latitude := 0, position_longitude := 0, position_altitude := 0
      position_timestamp := now
      battery_voltage := 0, battery_current := 0, battery_remaining := 0
      battery_consumed := 0
      battery_timestamp := now
      system_armed := false
      system_flight_mode := "OFFLINE"
      system_gps_status := 0
      system_satellites := 0
      system_load := 0
      system_timestamp := now
      rc_channels := List.replicate 8 1500
      rc_rssi := 0
      rc_timestamp := now
      servo_outputs := List.replicate 8 1500
      servo_timestamp := now }
  else
    { timestamp := now
      connection_status := st.is_connected
      offline_mode := false
      message := none
      attitude_roll := st.attitude.roll_degrees
      attitude_pitch := st.attitude.pitch_degrees
      attitude_yaw := st.attitude.yaw_degrees
      attitude_timestamp := st.attitude.timestamp
      velocity_ground_speed := st.velocity.ground_speed
      velocity_heading := st.velocity.heading
      velocity_climb_rate := st.velocity.climb_rate
      velocity_timestamp := st.velocity.timestamp
      position_latitude := st.position.latitude
      position_longitude := st.position.longitude
      position_altitude := st.position.altitude
      position_timestamp := st.position.timestamp
      battery_voltage := roundTo st.battery.voltage 2
      battery_current := roundTo st.battery.current 2
      battery_remaining := roundTo st.battery.remaining 1
      battery_consumed := roundTo st.battery.consumed 0
      battery_timestamp := st.battery.timestamp
      system_armed := st.system_status.armed
      system_flight_mode := st.system_status.flight_mode
      system_gps_status := st.system_status.gps_status
      system_satellites := st.system_status.satellites_visible
      system_load := roundTo st.system_status.system_load 1
      system_timestamp := st.system_status.timestamp
      rc_channels := st.rc_channels.channels.take 8
      rc_rssi := st.rc_channels.rssi
      rc_timestamp := st.rc_channels.timestamp
      servo_outputs := st.servo_output.outputs.take 8
      servo_timestamp := st.servo_output.timestamp }

/-! ## Helper lemmas -/

/-- The connection-layer clamp always lands in `[1000, 2000]`. -/
lemma clampRc_bounds (v : Int) : 1000 ≤ clampRc v ∧ clampRc v ≤ 2000 :=
  ⟨le_max_left _ _, max_le (by norm_num) (min_le_right v 2000)⟩

lemma frameStep_length (frame : List Int) (kv : Nat × Int) :
    (frameStep frame kv).length = frame.length := by
  unfold frameStep; split <;> simp

lemma foldl_frameStep_length (l : ChannelMap) :
    ∀ init : List Int, (List.foldl frameStep init l).length = init.length := by
  induction l with
  | nil => intro init; rfl
  | cons kv rest ih =>
    intro init
    rw [List.foldl_cons, ih, frameStep_length]

/-- The transmitted RC_CHANNELS_OVERRIDE frame always has 18 slots. -/
lemma buildFrame_length (m : ChannelMap) : (buildFrame m).length = 18 := by
  unfold buildFrame
  rw [foldl_frameStep_length]
  simp

lemma replicate_getD {α : Type} (n i : Nat) (a d : α) (h : i < n) :
    (List.replicate n a).getD i d = a := by
  rw [List.getD_eq_getElem?_getD, List.getElem?_replicate, if_pos h]
  rfl

lemma frameStep_getD (frame : List Int) (kv : Nat × Int) (i : Nat)
    (hlen : frame.length = 18) (hi : i < 18) :
    (frameStep frame kv).getD i 0 =
      if kv.1 = i + 1 then clampRc kv.2 else frame.getD i 0 := by
  unfold frameStep
  by_cases hk : kv.1 = i + 1
  · rw [if_pos (by omega), if_pos hk, hk]
    rw [List.getD_eq_getElem?_getD, List.getElem?_set]
    simp [hlen, hi]
  · rw [if_neg hk]
    split
    · rw [List.getD_eq_getElem?_getD, List.getD_eq_getElem?_getD,
        List.getElem?_set, if_neg (by omega)]
    · rfl

lemma foldl_frameStep_getD (l : ChannelMap) :
    ∀ init : List Int, init.length = 18 → ∀ i : Nat, i < 18 →
    (List.foldl frameStep init l).getD i 0 =
      match findLastVal l (i + 1) with
      | some v => clampRc v
      | none => init.getD i 0 := by
  induction l with
  | nil => intro init _ i _; rfl
  | cons kv rest ih =>
    intro init hlen i hi
    rw [List.foldl_cons,
      ih (frameStep init kv) (by rw [frameStep_length, hlen]) i hi]
    cases hrest : findLastVal rest (i + 1) with
    | some v => simp [findLastVal, hrest]
    | none =>
      simp only [findLastVal, hrest]
      rw [frameStep_getD init kv i hlen hi]
      by_cases hk : kv.1 = i + 1 <;> simp [hk]

/-- Characterization of a frame slot: the clamped value of the last entry
for that channel, `0` when the channel was not requested. -/
lemma buildFrame_getD (m : ChannelMap) (i : Nat) (hi : i < 18) :
    (buildFrame m).getD i 0 =
      match findLastVal m (i + 1) with
      | some v => clampRc v
      | none => 0 := by
  unfold buildFrame
  rw [foldl_frameStep_getD m _ (by simp) i hi]
  cases h : findLastVal m (i + 1)
  · simp only [h]
    exact replicate_getD 18 i 0 0 hi
  · simp only [h]

lemma findLastVal_eq_none (l : ChannelMap) (k : Nat) :
    findLastVal l k = none ↔ ∀ kv ∈ l, kv.1 ≠ k := by
  induction l with
  | nil => simp [findLastVal]
  | cons kv rest ih =>
    cases hrest : findLastVal rest k with
    | some v =>
      simp only [findLastVal, hrest]
      constructor
      · intro h; exact absurd h (by simp)
      · intro h
        exfalso
        have : ∀ kv ∈ rest, kv.1 ≠ k := fun x hx => h x (List.mem_cons_of_mem _ hx)
        rw [← ih] at this
        rw [this] at hrest
        exact Option.noConfusion hrest
    | none =>
      simp only [findLastVal, hrest]
      constructor
      · intro h
        intro x hx
        rcases List.mem_cons.mp hx with rfl | hx'
        · intro hk; rw [if_pos hk] at h; exact Option.noConfusion h
        · exact (ih.mp hrest) x hx'
      · intro h
        rw [if_neg (h kv (List.mem_cons_self _ _))]

lemma findLastVal_map_zero (chs : List Nat) (k : Nat) :
    findLastVal (chs.map fun c => (c, (0 : Int))) k =
      if k ∈ chs then some 0 else none := by
  induction chs with
  | nil => simp [findLastVal]
  | cons c rest ih =>
    simp only [List.map_cons, findLastVal, ih, List.mem_cons]
    by_cases hr : k ∈ rest
    · simp [hr]
    · by_cases hc : c = k
      · subst hc; simp [hr]
      · have hc' : ¬k = c := fun hh => hc hh.symm
        simp [hr, hc, hc']

lemma mem_removeKey (m : ChannelMap) (k : Nat) (kv : Nat × Int) :
    kv ∈ removeKey m k ↔ kv ∈ m ∧ kv.1 ≠ k := by
  unfold removeKey
  rw [List.mem_filter]
  simp

lemma mem_removeAllKeys (chs : List Nat) :
    ∀ (m : ChannelMap) (kv : Nat × Int),
    kv ∈ removeAllKeys m chs ↔ kv ∈ m ∧ kv.1 ∉ chs := by
  induction chs with
  | nil => intro m kv; simp [removeAllKeys]
  | cons c rest ih =>
    intro m kv
    have : removeAllKeys m (c :: rest) = removeAllKeys (removeKey m c) rest := rfl
    rw [this, ih, mem_removeKey]
    simp only [List.mem_cons]
    tauto

lemma dequeAppend_length_eq {α : Type} (maxlen : Nat) (q : List α) (x : α)
    (h : q.length ≤ maxlen) :
    (dequeAppend maxlen q x).length = min (q.length + 1) maxlen := by
  unfold dequeAppend
  dsimp only
  simp only [List.length_append, List.length_cons, List.length_nil]
  split <;> simp only [List.length_drop, List.length_append,
    List.length_cons, List.length_nil] <;> omega

lemma dequeExtend_length {α : Type} (maxlen : Nat) (xs : List α) :
    ∀ q : List α, q.length ≤ maxlen →
    (dequeExtend maxlen q xs).length = min (q.length + xs.length) maxlen := by
  induction xs with
  | nil =>
    intro q h
    simp only [dequeExtend, List.foldl_nil, List.length_nil]
    omega
  | cons x xs ih =>
    intro q h
    have hstep : dequeExtend maxlen q (x :: xs) =
        dequeExtend maxlen (dequeAppend maxlen q x) xs := rfl
    rw [hstep, ih _ (by rw [dequeAppend_length_eq maxlen q x h]; omega),
      dequeAppend_length_eq maxlen q x h]
    simp only [List.length_cons]
    omega

lemma dequeAppend_suffix {α : Type} (maxlen : Nat) (q : List α) (x : α) :
    dequeAppend maxlen q x <:+ q ++ [x] := by
  unfold dequeAppend
  dsimp only
  split
  · exact List.drop_suffix _ _
  · exact List.suffix_refl _

lemma dequeExtend_suffix {α : Type} (maxlen : Nat) (xs : List α) :
    ∀ q : List α, dequeExtend maxlen q xs <:+ q ++ xs := by
  induction xs with
  | nil => intro q; simp [dequeExtend]
  | cons x xs ih =>
    intro q
    have h1 : dequeExtend maxlen q (x :: xs) =
        dequeExtend maxlen (dequeAppend maxlen q x) xs := rfl
    rw [h1]
    have h2 := ih (dequeAppend maxlen q x)
    have h3 : dequeAppend maxlen q x ++ xs <:+ (q ++ [x]) ++ xs := by
      obtain ⟨u, hu⟩ := dequeAppend_suffix maxlen q x
      exact ⟨u, by rw [← List.append_assoc, hu]⟩
    exact h2.trans (by simpa [List.append_assoc] using h3)

/-! ## Claim C1 — throttle safety clamp

The claim (and the spec) say `set_rc_override({THROTTLE: 2500})` with the
configured throttle limit (`SAFETY_LIMITS['max_throttle_override'] = 1800`)
must transmit exactly 1800.  The live controller's `_apply_safety_limits`
never consults `SAFETY_LIMITS`: it clamps every channel into the generic
`[1000, 2000]` range, so 2500 is transmitted as 2000.  The config defines
the 1800 limit (and the unused sibling `rover_controller_fixed.py`
implements it), so the code contradicts its own configuration. -/

/-- C1: evaluating the code at the failing input: with safety limits
enabled and the connection up, requesting throttle 2500 transmits 2000 —
not the claimed 1800. -/
theorem claim1_throttle_clamp_code_bug :
    initialControllerState.safety_limits_enabled = true ∧
    (set_rc_override true initialControllerState [(Config.THROTTLE, 2500)]).1 = true ∧
    ((set_rc_override true initialControllerState
        [(Config.THROTTLE, 2500)]).2.2).map
      (fun f => f.getD (Config.THROTTLE - 1) 0) = some 2000 ∧
    (2000 : Int) ≠ Config.max_throttle_override := by
  decide

/-! ## Claim C2 — emergency stop semantics -/

/-- C2: from any Active controller state with the connection up,
`emergency_stop()` empties the override map, moves the controller to Idle
(latching the flag and cancelling both timers), every `set_rc_override`
call made while the latch is set fails with no state change, and
`release_emergency_stop()` clears the latch. -/
theorem claim2_emergency_stop (s : ControllerState)
    (hA : s.rc_override_active = true) :
    emergency_stop true s =
      (true,
        { s with
          emergency_stop_active := true
          rc_override_channels := ([] : List (Nat × Int))
          rc_override_active := false
          safety_timer_active := false
          maintain_timer_active := false }) ∧
    (∀ (b : Bool) (s' : ControllerState) (m : ChannelMap),
      s'.emergency_stop_active = true → set_rc_override b s' m = (false, s', none)) ∧
    (∀ s' : ControllerState,
      (release_emergency_stop s').2.emergency_stop_active = false) := by
  refine ⟨?_, ?_, ?_⟩
  · simp [emergency_stop, clear_rc_override, conn_clear_ok, conn_clear_frame]
  · intro b s' m hE
    cases b with
    | false => simp [set_rc_override]
    | true => simp [set_rc_override, check_rc_override_safety, hE]
  · intro s'
    simp [release_emergency_stop]

/-- A concrete Active state: throttle override 1500 set on a fresh,
connected controller. -/
def activeState : ControllerState :=
  (set_rc_override true initialControllerState [(1, 1500)]).2.1

/-- C2 witness at `activeState`. -/
theorem claim2_emergency_stop_witness :
    activeState.rc_override_active = true ∧
    (emergency_stop true activeState =
      (true,
        { activeState with
          emergency_stop_active := true
          rc_override_channels := ([] : List (Nat × Int))
          rc_override_active := false
          safety_timer_active := false
          maintain_timer_active := false }) ∧
    (∀ (b : Bool) (s' : ControllerState) (m : ChannelMap),
      s'.emergency_stop_active = true → set_rc_override b s' m = (false, s', none)) ∧
    (∀ s' : ControllerState,
      (release_emergency_stop s').2.emergency_stop_active = false)) :=
  ⟨by decide, claim2_emergency_stop activeState (by decide)⟩

/-! ## Claim C3 — connect() on heartbeat timeout

The claim says a heartbeat-timeout connect attempt "schedules exactly one
reconnect attempt after the fixed backoff".  In `connect()` the timeout
branch (`if not heartbeat:`) returns `False` without ever calling
`_start_reconnect_timer()`; only the exception handler schedules a
reconnect. -/

/-- C3 counterexample: a connect attempt that times out waiting for the
first heartbeat ends Disconnected with zero reconnect-timer starts — not
the claimed exactly one. -/
theorem claim3_counterexample :
    connect ⟨false, 0, 0⟩ ConnectOutcome.hbTimeout =
      (false, ⟨false, 0, 0⟩, 0) ∧ (0 : Nat) ≠ 1 := by
  decide

/-- C3 amended: on heartbeat timeout `connect()` leaves the state
Disconnected and returns failure but schedules no reconnect; exactly one
reconnect (after the fixed 5 s backoff) is scheduled only when the attempt
raises a transport error. -/
theorem claim3_amended (st : ConnState) :
    (connect st ConnectOutcome.hbTimeout).1 = false ∧
    (connect st ConnectOutcome.hbTimeout).2.1.is_connected = false ∧
    (connect st ConnectOutcome.hbTimeout).2.2 = 0 ∧
    (connect st ConnectOutcome.transportError).1 = false ∧
    (connect st ConnectOutcome.transportError).2.1.is_connected = false ∧
    (connect st ConnectOutcome.transportError).2.2 = 1 := by
  simp [connect]

/-! ## Claim C4 — battery history retention

The claim says the defaults are a 300 s age window plus a 5000-point count
cap, evicting by age first.  The code's history is a bare
`deque(maxlen=config.PERFORMANCE_CHARTS['max_data_points'])` with
`max_data_points = 300`: a count cap of 300 and no age-based eviction at
all (`time_window_seconds = 30` exists in the config but is never read). -/

/-- 6000 battery points arriving at 10 points per second. -/
def sixThousandPoints : List BatteryPoint :=
  List.map (fun i : Nat => BatteryPoint.mk ((i : ℚ) / 10) 12 1 50)
    (List.range 6000)

lemma sixThousandPoints_length : sixThousandPoints.length = 6000 := by
  rw [sixThousandPoints, List.length_map, List.length_range]

/-- C4 counterexample: appending 6000 battery points to an empty history
retains 300 points, not the claimed exactly 5000. -/
theorem claim4_counterexample :
    (battery_history_extend [] sixThousandPoints).length = 300 ∧
    (300 : Nat) ≠ 5000 := by
  constructor
  · rw [battery_history_extend, dequeExtend_length _ _ _ (by simp),
      sixThousandPoints_length]
    decide
  · decide

/-- C4 amended: only the count cap applies — appending any sequence of
battery points to an empty history retains exactly
`min (number appended) 300` points, and the retained points are a suffix
(the most recent ones) of the appended sequence; there is no age-based
eviction. -/
theorem claim4_amended (pts : List BatteryPoint) :
    (battery_history_extend [] pts).length =
      min pts.length Config.max_data_points ∧
    battery_history_extend [] pts <:+ pts := by
  constructor
  · rw [battery_history_extend, dequeExtend_length _ _ _ (by simp)]
    simp
  · simpa using dequeExtend_suffix Config.max_data_points pts []

/-! ## Claim C5 — battery sentinel values

The claim covers every battery-related message.  `_handle_battery_status`
does guard every field update on its sentinel, but `_handle_sys_status` —
also a battery-carrying message handler — overwrites `voltage`, `current`
and `remaining` unconditionally, so a SYS_STATUS message whose raw fields
are the sentinels (65535 mV, -1 cA, -1 %) replaces a known snapshot with
sentinel-derived garbage (65.535 V, -0.01 A, -1 %).  The spec's data-model
invariant ("sentinel 65535 and -1 raw values must be treated as no-data and
not overwrite a previously known value") and the code's own
BATTERY_STATUS handler establish the intent; `_handle_sys_status` is the
slip. -/

/-- Supporting fact: the BATTERY_STATUS handler honours the sentinel
convention — an all-sentinel message leaves every battery snapshot field
unchanged (only the timestamp is restamped). -/
lemma battery_status_sentinels_preserved (b : BatteryData)
    (hist : List BatteryPoint) (msg : BatteryMsg) (now : ℚ)
    (hv : msg.voltages.head? = some 65535)
    (hc : msg.current_battery = -1)
    (hr : msg.battery_remaining = -1)
    (hcons : msg.current_consumed = -1) :
    (handle_battery_status b hist msg now).1.voltage = b.voltage ∧
    (handle_battery_status b hist msg now).1.current = b.current ∧
    (handle_battery_status b hist msg now).1.remaining = b.remaining ∧
    (handle_battery_status b hist msg now).1.consumed = b.consumed ∧
    (handle_battery_status b hist msg now).1.timestamp = now := by
  obtain ⟨voltages, cb, br, cc⟩ := msg
  cases voltages with
  | nil => simp at hv
  | cons v0 rest =>
    simp only [List.head?_cons, Option.some.injEq] at hv
    simp only at hc hr hcons
    subst hv hc hr hcons
    simp [handle_battery_status]

/-- C5: evaluating the code at the failing input.  A known battery
snapshot (12 V, 5 A, 80 %, 100 mAh) survives an all-sentinel
BATTERY_STATUS message, but an all-sentinel SYS_STATUS message
(`voltage_battery = 65535`, `current_battery = -1`,
`battery_remaining = -1`) overwrites the same snapshot with the
sentinel-derived values 65.535 V, -0.01 A and -1 % — the sentinels are
not treated as "no data" on that path. -/
theorem claim5_sys_status_sentinel_code_bug :
    (handle_battery_status ⟨12, 5, 80, 100, 10⟩ []
        (BatteryMsg.mk [65535] (-1) (-1) (-1)) 20).1.voltage = (12 : ℚ) ∧
    (handle_battery_status ⟨12, 5, 80, 100, 10⟩ []
        (BatteryMsg.mk [65535] (-1) (-1) (-1)) 20).1.current = (5 : ℚ) ∧
    (handle_battery_status ⟨12, 5, 80, 100, 10⟩ []
        (BatteryMsg.mk [65535] (-1) (-1) (-1)) 20).1.remaining = (80 : ℚ) ∧
    (handle_sys_status ⟨12, 5, 80, 100, 10⟩ ⟨false, "MANUAL", 3, 0, 0, 0⟩
        (SysStatusMsg.mk 65535 (-1) (-1) 500) 20).1.voltage
      = (65535 / 1000 : ℚ) ∧
    (handle_sys_status ⟨12, 5, 80, 100, 10⟩ ⟨false, "MANUAL", 3, 0, 0, 0⟩
        (SysStatusMsg.mk 65535 (-1) (-1) 500) 20).1.current
      = (-1 / 100 : ℚ) ∧
    (handle_sys_status ⟨12, 5, 80, 100, 10⟩ ⟨false, "MANUAL", 3, 0, 0, 0⟩
        (SysStatusMsg.mk 65535 (-1) (-1) 500) 20).1.remaining = (-1 : ℚ) ∧
    (65535 / 1000 : ℚ) ≠ 12 ∧ (-1 / 100 : ℚ) ≠ 5 ∧ (-1 : ℚ) ≠ 80 := by
  refine ⟨rfl, rfl, rfl, ?_, ?_, ?_, by norm_num, by norm_num, by norm_num⟩ <;>
    simp [handle_sys_status]

/-! ## Claim C6 — offline dashboard composite -/

/-- C6: whenever the telemetry layer is not connected,
`get_dashboard_data` returns the fixed offline composite — connection
status false, every numeric field zero, RC channels and servo outputs at
neutral 1500 — regardless of whatever stale snapshots the state still
holds. -/
theorem claim6_offline_dashboard (st : TelemetryState) (now : ℚ)
    (h : st.is_connected = false) :
    get_dashboard_data st now =
      { timestamp := now
        connection_status := false
        offline_mode := true
        message := some "未連接到飛控，顯示離線數據"
        attitude_roll := 0, attitude_pitch := 0, attitude_yaw := 0
        attitude_timestamp := now
        velocity_ground_speed := 0, velocity_heading := 0
        velocity_climb_rate := 0
        velocity_timestamp := now
        position_latitude := 0, position_longitude := 0
        position_altitude := 0
        position_timestamp := now
        battery_voltage := 0, battery_current := 0, battery_remaining := 0
        battery_consumed := 0
        battery_timestamp := now
        system_armed := false
        system_flight_mode := "OFFLINE"
        system_gps_status := 0
        system_satellites := 0
        system_load := 0
        system_timestamp := now
        rc_channels := List.replicate 8 1500
        rc_rssi := 0
        rc_timestamp := now
        servo_outputs := List.replicate 8 1500
        servo_timestamp := now } := by
  unfold get_dashboard_data
  rw [if_pos (show ¬(st.is_connected = true) by simp [h])]

/-- A telemetry state full of stale nonzero snapshots from a previous
connection, now disconnected. -/
def staleTelemetryState : TelemetryState :=
  { is_connected := false
    attitude := ⟨1, 2, 3, 57, 114, 171, 10⟩
    velocity := ⟨4, 0, 1, 90, 10⟩
    position := ⟨25, 121, 50, 5, 10⟩
    battery := ⟨12, 5, 80, 100, 10⟩
    system_status := ⟨true, "MANUAL", 3, 12, 40, 10⟩
    rc_channels := ⟨List.replicate 18 1700, 200, 10⟩
    servo_output := ⟨List.replicate 16 1800, 10⟩ }

/-- C6 witness: the stale disconnected state still yields the neutral
offline composite. -/
theorem claim6_offline_dashboard_witness :
    staleTelemetryState.is_connected = false ∧
    get_dashboard_data staleTelemetryState 42 =
      { timestamp := 42
        connection_status := false
        offline_mode := true
        message := some "未連接到飛控，顯示離線數據"
        attitude_roll := 0, attitude_pitch := 0, attitude_yaw := 0
        attitude_timestamp := 42
        velocity_ground_speed := 0, velocity_heading := 0
        velocity_climb_rate := 0
        velocity_timestamp := 42
        position_latitude := 0, position_longitude := 0
        position_altitude := 0
        position_timestamp := 42
        battery_voltage := 0, battery_current := 0, battery_remaining := 0
        battery_consumed := 0
        battery_timestamp := 42
        system_armed := false
        system_flight_mode := "OFFLINE"
        system_gps_status := 0
        system_satellites := 0
        system_load := 0
        system_timestamp := 42
        rc_channels := List.replicate 8 1500
        rc_rssi := 0
        rc_timestamp := 42
        servo_outputs := List.replicate 8 1500
        servo_timestamp := 42 } :=
  ⟨rfl, claim6_offline_dashboard staleTelemetryState 42 rfl⟩

/-! ## Claim C7 — clearing named channels

The claim says the protocol's clear/neutral (release, i.e. `0`) encoding
is sent for exactly the named channels.  The code's
`connection.clear_rc_override(channels)` builds `{ch: 0}` but routes it
through `send_rc_override`, whose clamp turns the 0 into 1000; and the
frame necessarily carries the release value 0 on every *other* slot. -/

/-- C7 counterexample: clearing channel 1 (connection up, channel 1
active) transmits 1000 on channel 1's slot — not the release encoding 0
claimed. -/
theorem claim7_counterexample :
    ((clear_rc_override true
        { initialControllerState with
          rc_override_active := true
          rc_override_channels := [(1, 1500)] } (some [1])).2.2).map
      (fun f => f.getD 0 0) = some 1000 ∧ (1000 : Int) ≠ 0 := by
  decide

lemma clear_some_eq (s : ControllerState) (chs : List Nat) :
    clear_rc_override true s (some chs) =
      (if (removeAllKeys s.rc_override_channels chs).isEmpty then
        (true,
          { s with
            rc_override_channels := removeAllKeys s.rc_override_channels chs
            rc_override_active := false
            safety_timer_active := false
            maintain_timer_active := false },
          conn_clear_frame true (some chs))
      else
        (true,
          { s with
            rc_override_channels := removeAllKeys s.rc_override_channels chs },
          conn_clear_frame true (some chs))) := rfl

/-- C7 amended: on a nonempty named-channel clear with the connection up,
the call succeeds, the named channels are removed from the override map
(all other entries kept), an empty resulting map moves the controller to
Idle with both timers cancelled, and the transmitted frame carries 1000
(the clamped image of the clear value 0) on every named channel's slot and
the release value 0 on every other slot. -/
theorem claim7_amended (s : ControllerState) (chs : List Nat)
    (hne : chs ≠ []) :
    (clear_rc_override true s (some chs)).1 = true ∧
    (∀ kv ∈ (clear_rc_override true s (some chs)).2.1.rc_override_channels,
      kv.1 ∉ chs) ∧
    (∀ kv ∈ s.rc_override_channels, kv.1 ∉ chs →
      kv ∈ (clear_rc_override true s (some chs)).2.1.rc_override_channels) ∧
    ((clear_rc_override true s (some chs)).2.1.rc_override_channels = [] →
      (clear_rc_override true s (some chs)).2.1.rc_override_active = false ∧
      (clear_rc_override true s (some chs)).2.1.safety_timer_active = false ∧
      (clear_rc_override true s (some chs)).2.1.maintain_timer_active = false) ∧
    (clear_rc_override true s (some chs)).2.2 =
      some (buildFrame (chs.map fun c => (c, (0 : Int)))) ∧
    (∀ i : Nat, i < 18 →
      ((i + 1) ∈ chs →
        (buildFrame (chs.map fun c => (c, (0 : Int)))).getD i 0 = 1000) ∧
      ((i + 1) ∉ chs →
        (buildFrame (chs.map fun c => (c, (0 : Int)))).getD i 0 = 0)) := by
  have hempty_false : chs.isEmpty = false := by
    cases chs with
    | nil => exact absurd rfl hne
    | cons a l => rfl
  have hframe : conn_clear_frame true (some chs) =
      some (buildFrame (chs.map fun c => (c, (0 : Int)))) := by
    simp [conn_clear_frame, send_rc_override_frame, hempty_false]
  have hvals : ∀ i : Nat, i < 18 →
      ((i + 1) ∈ chs →
        (buildFrame (chs.map fun c => (c, (0 : Int)))).getD i 0 = 1000) ∧
      ((i + 1) ∉ chs →
        (buildFrame (chs.map fun c => (c, (0 : Int)))).getD i 0 = 0) := by
    intro i hi
    constructor
    · intro hmem
      rw [buildFrame_getD _ i hi, findLastVal_map_zero, if_pos hmem]
      decide
    · intro hmem
      rw [buildFrame_getD _ i hi, findLastVal_map_zero, if_neg hmem]
  rw [clear_some_eq]
  by_cases hm : (removeAllKeys s.rc_override_channels chs).isEmpty
  · rw [if_pos hm]
    refine ⟨rfl, ?_, ?_, fun _ => ⟨rfl, rfl, rfl⟩, hframe, hvals⟩
    · intro kv hkv
      exact ((mem_removeAllKeys chs _ kv).mp hkv).2
    · intro kv hkv hnot
      exact (mem_removeAllKeys chs _ kv).mpr ⟨hkv, hnot⟩
  · rw [if_neg hm]
    refine ⟨rfl, ?_, ?_, ?_, hframe, hvals⟩
    · intro kv hkv
      exact ((mem_removeAllKeys chs _ kv).mp hkv).2
    · intro kv hkv hnot
      exact (mem_removeAllKeys chs _ kv).mpr ⟨hkv, hnot⟩
    · intro hempty
      exact absurd (List.isEmpty_iff.mpr hempty) hm

/-- C7 witness: clearing channel 2 out of an override map holding
channels 1 and 2. -/
theorem claim7_amended_witness :
    (([2] : List Nat) ≠ []) ∧
    ((clear_rc_override true
        { initialControllerState with
          rc_override_active := true
          rc_override_channels := [(1, 1500), (2, 1600)] } (some [2])).1 = true ∧
    (∀ kv ∈ (clear_rc_override true
        { initialControllerState with
          rc_override_active := true
          rc_override_channels := [(1, 1500), (2, 1600)] }
        (some [2])).2.1.rc_override_channels, kv.1 ∉ ([2] : List Nat)) ∧
    (∀ kv ∈ ({ initialControllerState with
          rc_override_active := true
          rc_override_channels := [(1, 1500), (2, 1600)] } :
            ControllerState).rc_override_channels, kv.1 ∉ ([2] : List Nat) →
      kv ∈ (clear_rc_override true
        { initialControllerState with
          rc_override_active := true
          rc_override_channels := [(1, 1500), (2, 1600)] }
        (some [2])).2.1.rc_override_channels) ∧
    ((clear_rc_override true
        { initialControllerState with
          rc_override_active := true
          rc_override_channels := [(1, 1500), (2, 1600)] }
        (some [2])).2.1.rc_override_channels = [] →
      (clear_rc_override true
        { initialControllerState with
          rc_override_active := true
          rc_override_channels := [(1, 1500), (2, 1600)] }
        (some [2])).2.1.rc_override_active = false ∧
      (clear_rc_override true
        { initialControllerState with
          rc_override_active := true
          rc_override_channels := [(1, 1500), (2, 1600)] }
        (some [2])).2.1.safety_timer_active = false ∧
      (clear_rc_override true
        { initialControllerState with
          rc_override_active := true
          rc_override_channels := [(1, 1500), (2, 1600)] }
        (some [2])).2.1.maintain_timer_active = false) ∧
    (clear_rc_override true
        { initialControllerState with
          rc_override_active := true
          rc_override_channels := [(1, 1500), (2, 1600)] }
        (some [2])).2.2 =
      some (buildFrame (([2] : List Nat).map fun c => (c, (0 : Int)))) ∧
    (∀ i : Nat, i < 18 →
      ((i + 1) ∈ ([2] : List Nat) →
        (buildFrame (([2] : List Nat).map fun c => (c, (0 : Int)))).getD i 0
          = 1000) ∧
      ((i + 1) ∉ ([2] : List Nat) →
        (buildFrame (([2] : List Nat).map fun c => (c, (0 : Int)))).getD i 0
          = 0))) :=
  ⟨by decide,
    claim7_amended
      { initialControllerState with
        rc_override_active := true
        rc_override_channels := [(1, 1500), (2, 1600)] } [2] (by decide)⟩

/-! ## Claim C8 — clear_override idempotence

The claim quantifies over every reachable controller state.  When the
connection is down (reachable: set an override while connected, then lose
the link), `connection.clear_rc_override` fails, the controller keeps its
Active state, and `clear_rc_override()` returns failure — so the claim
fails as stated; it holds whenever the connection is up. -/

/-- The reachable state: override set while connected, link since lost. -/
def strandedActiveState : ControllerState :=
  (set_rc_override true initialControllerState [(1, 1500)]).2.1

/-- C8 counterexample: with the connection down, a double
`clear_rc_override()` leaves the controller Active (not Idle) both times,
and the calls return failure. -/
theorem claim8_counterexample :
    strandedActiveState.rc_override_active = true ∧
    (clear_rc_override false strandedActiveState none).1 = false ∧
    (clear_rc_override false strandedActiveState none).2.1.rc_override_active
      = true ∧
    (clear_rc_override false
        ((clear_rc_override false strandedActiveState none).2.1)
        none).2.1.rc_override_active = true := by
  decide

/-- C8 amended: with the connection up, calling `clear_rc_override()`
(no channel argument) twice from any controller state leaves the override
state Idle (inactive, empty map) after each call, and both calls
succeed. -/
theorem claim8_amended (s : ControllerState) :
    (clear_rc_override true s none).1 = true ∧
    (clear_rc_override true s none).2.1.rc_override_active = false ∧
    (clear_rc_override true s none).2.1.rc_override_channels = [] ∧
    (clear_rc_override true ((clear_rc_override true s none).2.1) none).1
      = true ∧
    (clear_rc_override true ((clear_rc_override true s none).2.1)
        none).2.1.rc_override_active = false ∧
    (clear_rc_override true ((clear_rc_override true s none).2.1)
        none).2.1.rc_override_channels = [] := by
  simp [clear_rc_override, conn_clear_ok, conn_clear_frame]

/-! ## Claim C9 — connection-layer clamp invariant -/

/-- C9: with the connection up, `send_rc_override` transmits a frame in
which every requested channel slot (channels 1..18) carries a value in
`[1000, 2000]` and every unrequested slot carries the release value 0;
this clamp lives in the connection layer, and with
`safety_limits_enabled = false` the controller passes the map through
untouched, so the bound holds independently of the controller. -/
theorem claim9_connection_clamp (m : ChannelMap) :
    send_rc_override_frame true m = some (buildFrame m) ∧
    (buildFrame m).length = 18 ∧
    (∀ i : Nat, i < 18 →
      ((∃ kv ∈ m, kv.1 = i + 1) →
        1000 ≤ (buildFrame m).getD i 0 ∧ (buildFrame m).getD i 0 ≤ 2000) ∧
      ((∀ kv ∈ m, kv.1 ≠ i + 1) → (buildFrame m).getD i 0 = 0)) ∧
    (∀ s : ControllerState, s.safety_limits_enabled = false →
      apply_safety_limits s m = m) := by
  refine ⟨rfl, buildFrame_length m, ?_, ?_⟩
  · intro i hi
    constructor
    · rintro ⟨kv, hkv, hk⟩
      cases hf : findLastVal m (i + 1) with
      | none => exact absurd hk ((findLastVal_eq_none m (i + 1)).mp hf kv hkv)
      | some v =>
        rw [buildFrame_getD m i hi, hf]
        exact clampRc_bounds v
    · intro hall
      rw [buildFrame_getD m i hi, (findLastVal_eq_none m (i + 1)).mpr hall]
  · intro s hs
    simp [apply_safety_limits, hs]

/-! ## Claim C10 — emergency stop while disconnected -/

/-- C10: with the connection down, `emergency_stop()` still returns True
and latches the flag, but the underlying clear command fails, so the
override map and the active flag are left untouched; the map is emptied
whenever the clear command send succeeds. -/
theorem claim10_emergency_stop_offline (s : ControllerState) :
    emergency_stop false s = (true, { s with emergency_stop_active := true }) ∧
    (clear_rc_override false { s with emergency_stop_active := true } none).1
      = false ∧
    (∀ s' : ControllerState,
      (clear_rc_override true s' none).1 = true ∧
      (clear_rc_override true s' none).2.1.rc_override_channels = []) := by
  refine ⟨?_, ?_, ?_⟩ <;>
    simp [emergency_stop, clear_rc_override, conn_clear_ok, conn_clear_frame]

end HoltekGCS
